import Mathlib

/-!
# Verification of the Crystal-Runtime scripting runtime

Shallow embedding of the scripting runtime of the Crystal-Runtime repository:
the Scene Store (`src/data_model.rs`), the native Lua binding layer
(`src/scripting/bindings.rs`), the native thread-based script manager
(`src/scripting/manager.rs`), the cooperative / serialized WebAssembly
strategy (`src/scripting/wasm.rs`, including the embedded Luau helper
script), and the input-name parsing layer (`src/input.rs`).

Machine floats (`f32`) are modelled as rationals; where a claim is about
floating-point rounding the rounding step is modelled as an arbitrary
function with the `f32` relative-error bound.  Strings are modelled as Lean
strings; Rust byte-level string operations are modelled on the character
list, which coincides with the source for ASCII data (all inputs relevant
to the claims are ASCII).
-/

set_option maxHeartbeats 1000000

namespace Crystal

/-! ## Scene data (`src/scene.rs`) -/

/-- Three-component vector (`glam::Vec3`, components modelled as rationals). -/
structure Vec3 where
  x : ℚ
  y : ℚ
  z : ℚ
deriving DecidableEq, Repr

/-- Scene object as described by the authoring tools (`SceneObject` in
`src/scene.rs`). -/
structure SceneObject where
  name : String
  object_type : String
  mesh : Option String
  color : Vec3
  position : Vec3
  rotation : Vec3
  scale : Vec3
  fov : ℚ
  intensity : ℚ
deriving DecidableEq, Repr

/-- Embeds `SceneObject::default()`: empty name and type, no mesh, white color,
zero position and rotation, unit scale, fov 45, intensity 1. -/
def SceneObject.default : SceneObject :=
  { name := "", object_type := "", mesh := none
    color := ⟨1, 1, 1⟩, position := ⟨0, 0, 0⟩, rotation := ⟨0, 0, 0⟩
    scale := ⟨1, 1, 1⟩, fov := 45, intensity := 1 }

/-! ## Scene Store (`src/data_model.rs`)

`DataModel` wraps `Arc<RwLock<Vec<SceneObject>>>`; the embedding models the
guarded vector directly.  Every lock-protected operation of the source is a
pure function from the vector to its result (and, for writers, the updated
vector). -/

/-- The vector of scene objects behind the `DataModel` lock. -/
abbrev DataModel : Type := List SceneObject

/-- Embeds `DataModel::all_objects`: clone of the stored vector. -/
def DataModel.all_objects (m : DataModel) : List SceneObject := m

/-- Embeds `DataModel::get`: clone of the first object whose name matches. -/
def DataModel.get (m : DataModel) (name : String) : Option SceneObject :=
  List.find? (fun object => object.name == name) m

/-- Embeds `DataModel::update`: mutates the first object whose name matches and
reports whether one was found (`is_some` on the source's `Option<R>`). -/
def DataModel.update (m : DataModel) (name : String)
    (updater : SceneObject → SceneObject) : DataModel × Bool :=
  match m with
  | [] => ([], false)
  | object :: rest =>
    if object.name == name then (updater object :: rest, true)
    else
      let r := DataModel.update rest name updater
      (object :: r.1, r.2)

/-- Embeds `DataModel::set_position`. -/
def DataModel.set_position (m : DataModel) (name : String) (position : Vec3) :
    DataModel × Bool :=
  m.update name (fun obj => { obj with position := position })

/-- Embeds `DataModel::set_rotation`. -/
def DataModel.set_rotation (m : DataModel) (name : String) (rotation : Vec3) :
    DataModel × Bool :=
  m.update name (fun obj => { obj with rotation := rotation })

/-- Embeds `DataModel::set_scale`. -/
def DataModel.set_scale (m : DataModel) (name : String) (scale : Vec3) :
    DataModel × Bool :=
  m.update name (fun obj => { obj with scale := scale })

/-- Embeds `DataModel::set_color`. -/
def DataModel.set_color (m : DataModel) (name : String) (color : Vec3) :
    DataModel × Bool :=
  m.update name (fun obj => { obj with color := color })

/-- Embeds `DataModel::set_fov`. -/
def DataModel.set_fov (m : DataModel) (name : String) (fov : ℚ) :
    DataModel × Bool :=
  m.update name (fun obj => { obj with fov := fov })

/-- Embeds `DataModel::set_intensity`. -/
def DataModel.set_intensity (m : DataModel) (name : String) (intensity : ℚ) :
    DataModel × Bool :=
  m.update name (fun obj => { obj with intensity := intensity })

/-! ## Native binding layer (`src/scripting/bindings.rs`) -/

/-- The capability bundle handed to one script (`ScriptContext`): the Scene
Store handle and the value the shared `running` flag holds at the moment an
operation executes.  (Input and viewport handles are omitted here; they are
modelled separately with the input layer.) -/
structure ScriptContext where
  data_model : DataModel
  running : Bool

/-- Embeds `PlaceObject` position setter (`add_field_method_set("position", ..)`):
calls `DataModel::set_position`, discards the returned `bool`, and returns
`Ok(())` to the script. -/
def placeObject_set_position (ctx : ScriptContext) (name : String)
    (value : Vec3) : DataModel × Except String Unit :=
  ((ctx.data_model.set_position name value).1, Except.ok ())

/-- Embeds `PlaceObject` rotation setter. -/
def placeObject_set_rotation (ctx : ScriptContext) (name : String)
    (value : Vec3) : DataModel × Except String Unit :=
  ((ctx.data_model.set_rotation name value).1, Except.ok ())

/-- Embeds `PlaceObject` scale setter. -/
def placeObject_set_scale (ctx : ScriptContext) (name : String)
    (value : Vec3) : DataModel × Except String Unit :=
  ((ctx.data_model.set_scale name value).1, Except.ok ())

/-- Embeds `PlaceObject` color setter. -/
def placeObject_set_color (ctx : ScriptContext) (name : String)
    (value : Vec3) : DataModel × Except String Unit :=
  ((ctx.data_model.set_color name value).1, Except.ok ())

/-- Embeds `PlaceObject` fov setter. -/
def placeObject_set_fov (ctx : ScriptContext) (name : String)
    (value : ℚ) : DataModel × Except String Unit :=
  ((ctx.data_model.set_fov name value).1, Except.ok ())

/-- Embeds `PlaceObject` intensity setter. -/
def placeObject_set_intensity (ctx : ScriptContext) (name : String)
    (value : ℚ) : DataModel × Except String Unit :=
  ((ctx.data_model.set_intensity name value).1, Except.ok ())

/-- The periodic interrupt hook installed by `run_script_thread`
(`lua.set_hook`, every 1000 instructions): raises the distinguished
cancellation error when the shared running flag is observed cleared. -/
def lua_hook_check (running : Bool) : Except String Unit :=
  if running then Except.ok ()
  else Except.error "script stopped by host"

/-! ## The script-level `wait` (`register_wait` in `src/scripting/bindings.rs`)

The body of the `wait` closure performs observable thread effects (yielding,
loading the shared flag, sleeping).  The embedding records those effects as
a trace; the shared `AtomicBool` is modelled as the sequence of values the
successive loads observe, a function from the load index to the value. -/

/-- One observable effect of the native `wait` closure. -/
inductive WaitEvent where
  /-- Embeds `std::thread::yield_now()` -/
  | yieldNow
  /-- a load of the shared running flag and the value it observed -/
  | check (observed : Bool)
  /-- Embeds `std::thread::sleep(Duration::from_millis(ms))` -/
  | sleep (ms : Nat)
deriving DecidableEq, Repr

/-- The `while remaining > 0` loop of the `wait` closure: before each slice
the running flag is loaded (`flag k` is the value the k-th load observes);
if it is cleared the closure returns the distinguished
`RuntimeError("wait interrupted")`, otherwise it sleeps
`min remaining CHUNK` (with `CHUNK = 10`) and decrements `remaining`. -/
def waitLoop (flag : Nat → Bool) (k : Nat) (remaining : Nat) :
    List WaitEvent × Except String Unit :=
  if h : remaining = 0 then ([], Except.ok ())
  else if flag k then
    let s := min remaining 10
    let r := waitLoop flag (k + 1) (remaining - s)
    (WaitEvent.check true :: WaitEvent.sleep s :: r.1, r.2)
  else ([WaitEvent.check false], Except.error "wait interrupted")
termination_by remaining
decreasing_by
  have h1 : 1 ≤ min remaining 10 := by omega
  omega

/-- The native `wait(millis)` closure: a missing argument defaults to 0; a
zero duration performs a single `yield_now` and returns `Ok(())` without
touching the flag; a positive duration runs the slice loop. -/
def wait_native (flag : Nat → Bool) (millis : Option Nat) :
    List WaitEvent × Except String Unit :=
  let remaining := millis.getD 0
  if remaining = 0 then ([WaitEvent.yieldNow], Except.ok ())
  else waitLoop flag 0 remaining

/-- Total milliseconds slept along a wait trace. -/
def sleepTotal (tr : List WaitEvent) : Nat :=
  (tr.filterMap fun e => match e with | WaitEvent.sleep n => some n | _ => none).sum

/-- Shape of a trace of the slice loop: the flag is re-checked before every
slice, every slice is between 1 and 10 milliseconds, and after a check that
observes the cleared flag no further sleep occurs (the trace ends there). -/
inductive SlicedTrace : List WaitEvent → Prop where
  | nil : SlicedTrace []
  | abort : SlicedTrace [WaitEvent.check false]
  | slice (n : Nat) (tr : List WaitEvent) (h1 : 0 < n) (h2 : n ≤ 10)
      (h3 : SlicedTrace tr) :
      SlicedTrace (WaitEvent.check true :: WaitEvent.sleep n :: tr)

/-! ## Lua values and the `wait` argument conversion

Dynamic Lua values crossing the sandbox boundary.  Tables are association
lists from string keys to values (integer keys are written as their decimal
string; the claims only exercise string keys). -/

/-- A dynamic Lua value. -/
inductive LuaValue where
  | nil
  | boolean (b : Bool)
  | num (q : ℚ)
  | str (s : String)
  | table (fields : List (String × LuaValue))
deriving Repr

/-- Table field lookup (`value.x` on a Lua table); `nil` when absent or when
the value is not a table. -/
def LuaValue.getField : LuaValue → String → LuaValue
  | LuaValue.table fields, key =>
    match fields.find? (fun p => p.1 == key) with
    | some p => p.2
    | none => LuaValue.nil
  | _, _ => LuaValue.nil

/-- Lua `a or b`: `b` when `a` is `nil` or `false`, else `a`. -/
def luaOr (a b : LuaValue) : LuaValue :=
  match a with
  | LuaValue.nil => b
  | LuaValue.boolean false => b
  | v => v

/-- Decimal number literal parser, the fragment of Lua's `tonumber` string
coercion the claims exercise: optional sign, digits, optional fractional
digits.  (Lua additionally accepts hex and exponent forms; none of the
claims depend on those.)  Modelled from the external Lua standard library,
which is not part of this repository. -/
def parseDecimal (cs : List Char) : Option ℚ :=
  let (sign, rest) :=
    match cs with
    | '-' :: t => ((-1 : ℚ), t)
    | '+' :: t => ((1 : ℚ), t)
    | t => ((1 : ℚ), t)
  let intPart := rest.takeWhile Char.isDigit
  let rest2 := rest.dropWhile Char.isDigit
  let (fracPart, rest3) :=
    match rest2 with
    | '.' :: t => (t.takeWhile Char.isDigit, t.dropWhile Char.isDigit)
    | t => ([], t)
  if intPart.isEmpty && fracPart.isEmpty then none
  else if !rest3.isEmpty then none
  else
    let intVal : ℚ := intPart.foldl (fun acc c => acc * 10 + (c.toNat - 48)) 0
    let fracVal : ℚ := fracPart.foldl (fun acc c => acc * 10 + (c.toNat - 48)) 0
    some (sign * (intVal + fracVal / 10 ^ fracPart.length))

/-- Lua `tonumber`: numbers convert to themselves, numeric strings coerce,
everything else gives `nil` (modelled as `none`). -/
def lua_tonumber : LuaValue → Option ℚ
  | LuaValue.num q => some q
  | LuaValue.str s => parseDecimal s.data
  | _ => none

/-- mlua's argument conversion for the native `wait` closure's
`Option<u64>` parameter: `nil` (or no argument) becomes `None`; a number
converts when it is a nonnegative integer and fails with a conversion error
otherwise (negative or fractional values are out of range for `u64`);
numeric strings coerce like Lua's number coercion; any other value fails.
Modelled from the external mlua `FromLua` conversion, which is not part of
this repository. -/
def luaToOptU64 : LuaValue → Except String (Option Nat)
  | LuaValue.nil => Except.ok none
  | LuaValue.num q =>
    if 0 ≤ q ∧ q.den = 1 then Except.ok (some q.num.toNat)
    else Except.error "error converting Lua number to u64"
  | LuaValue.str s =>
    match parseDecimal s.data with
    | some q =>
      if 0 ≤ q ∧ q.den = 1 then Except.ok (some q.num.toNat)
      else Except.error "error converting Lua string to u64"
    | none => Except.error "error converting Lua string to u64"
  | _ => Except.error "error converting Lua value to u64"

/-- The native `wait` binding as the script observes it: the argument is
converted to `Option<u64>` before the closure body runs; a conversion
failure is raised to the script, otherwise the closure body
(`wait_native`) runs. -/
def wait_binding (flag : Nat → Bool) (arg : LuaValue) :
    List WaitEvent × Except String Unit :=
  match luaToOptU64 arg with
  | Except.error e => ([], Except.error e)
  | Except.ok millis => wait_native flag millis

/-- The cooperative strategy's script-level `wait` (the `wait` function of
`LUAU_HELPERS` in `src/scripting/wasm.rs`): `tonumber(duration) or 0`,
negative values clamped to zero, then the duration is yielded to the host
(`coroutine.yield(duration)`).  The returned rational is the duration the
host receives. -/
def luau_wait (duration : LuaValue) : ℚ :=
  let d := (lua_tonumber duration).getD 0
  if d < 0 then 0 else d

/-- Host-side wait sanitation in `execute_script`
(`raw.wait.unwrap_or(0.0).max(0.0)` then `.min(u32::MAX as f64) as u32`):
a missing or negative reported wait becomes zero; the result is truncated
to a `u32` millisecond count. -/
def script_result_wait (raw : Option ℚ) : Nat :=
  let w := max (raw.getD 0) 0
  (min w 4294967295).floor.toNat

/-! ## Cooperative / serialized strategy (`src/scripting/wasm.rs`)

The Luau helper prelude (`LUAU_HELPERS`) keeps, per script, a table of
object data (deserialized from the host snapshot), and a list of recorded
field-change events.  The host applies the recorded events to the real
Scene Store with `apply_change`. -/

/-- A JSON value, as produced by the helper prelude's encoder and consumed
by `serde_json` in `apply_change`. -/
inductive Json where
  | null
  | boolean (b : Bool)
  | num (q : ℚ)
  | str (s : String)
  | arr (items : List Json)
  | obj (fields : List (String × Json))
deriving Repr

/-- One recorded field-change event (`ScriptChange`). -/
structure ScriptChange where
  object : String
  field : String
  value : Json
deriving Repr

/-- JSON object member lookup (`obj.get(key)`). -/
def Json.getField : Json → String → Option Json
  | Json.obj fields, key => (fields.find? (fun p => p.1 == key)).map Prod.snd
  | _, _ => none

/-- Embeds `Value::as_f64` on a JSON value. -/
def Json.asNum : Json → Option ℚ
  | Json.num q => some q
  | _ => none

/-- Embeds `parse_vec3` in `src/scripting/wasm.rs`: the value must be a JSON
object with numeric `x`, `y`, `z` members. -/
def parse_vec3 (value : Json) : Except String Vec3 :=
  match value with
  | Json.obj _ =>
    match (value.getField "x").bind Json.asNum with
    | none => Except.error "missing vector component x"
    | some x =>
      match (value.getField "y").bind Json.asNum with
      | none => Except.error "missing vector component y"
      | some y =>
        match (value.getField "z").bind Json.asNum with
        | none => Except.error "missing vector component z"
        | some z => Except.ok ⟨x, y, z⟩
  | _ => Except.error "expected object for vector"

/-- Embeds `parse_f32` in `src/scripting/wasm.rs`. -/
def parse_f32 (value : Json) : Except String ℚ :=
  match value.asNum with
  | some v => Except.ok v
  | none => Except.error "expected number"

/-- Embeds `apply_change` in `src/scripting/wasm.rs`: dispatches on the field
name, parses the payload, applies the matching Scene Store setter, and
fails when the setter reports the object name unknown.  On the error paths
the Scene Store is untouched, so only the success path returns a model. -/
def apply_change (m : DataModel) (change : ScriptChange) :
    Except String DataModel :=
  match change.field with
  | "position" =>
    match parse_vec3 change.value with
    | Except.error e => Except.error e
    | Except.ok vec =>
      let r := m.set_position change.object vec
      if r.2 then Except.ok r.1
      else Except.error ("unknown object " ++ change.object)
  | "rotation" =>
    match parse_vec3 change.value with
    | Except.error e => Except.error e
    | Except.ok vec =>
      let r := m.set_rotation change.object vec
      if r.2 then Except.ok r.1
      else Except.error ("unknown object " ++ change.object)
  | "scale" =>
    match parse_vec3 change.value with
    | Except.error e => Except.error e
    | Except.ok vec =>
      let r := m.set_scale change.object vec
      if r.2 then Except.ok r.1
      else Except.error ("unknown object " ++ change.object)
  | "color" =>
    match parse_vec3 change.value with
    | Except.error e => Except.error e
    | Except.ok vec =>
      let r := m.set_color change.object vec
      if r.2 then Except.ok r.1
      else Except.error ("unknown object " ++ change.object)
  | "fov" =>
    match parse_f32 change.value with
    | Except.error e => Except.error e
    | Except.ok v =>
      let r := m.set_fov change.object v
      if r.2 then Except.ok r.1
      else Except.error ("unknown object " ++ change.object)
  | "intensity" =>
    match parse_f32 change.value with
    | Except.error e => Except.error e
    | Except.ok v =>
      let r := m.set_intensity change.object v
      if r.2 then Except.ok r.1
      else Except.error ("unknown object " ++ change.object)
  | other => Except.error ("unsupported field " ++ other)

/-- Per-script object data held by the helper prelude (one entry of the
`__objects` table emitted by `emit_object_table`). -/
structure LuauObjectData where
  name : String
  object_type : String
  mesh : Option String
  position : Vec3
  rotation : Vec3
  scale : Vec3
  color : Vec3
  fov : ℚ
  intensity : ℚ
deriving DecidableEq, Repr

/-- Embeds `emit_object_table`: serializes the Scene Store snapshot into the
`__objects` table, keyed by object name.  (The source prints the numeric
fields as decimal literals with at most six fractional digits; the
embedding keeps the exact values, which is all the claims need.) -/
def emit_object_table (m : DataModel) : List (String × LuauObjectData) :=
  m.all_objects.map fun o =>
    (o.name,
      { name := o.name, object_type := o.object_type, mesh := o.mesh
        position := o.position, rotation := o.rotation, scale := o.scale
        color := o.color, fov := o.fov, intensity := o.intensity })

/-- The helper prelude's per-script state that field writes touch: the
object table and the list of recorded changes of the current tick. -/
structure LuauScriptState where
  objects : List (String × LuauObjectData)
  changes : List ScriptChange

/-- Embeds `__to_vec3` of the helper prelude: the value must be a table whose
`x`/`X`, `y`/`Y`, `z`/`Z` members (lowercase preferred, Lua `or`) are all
numbers. -/
def luauToVec3 (value : LuaValue) : Option Vec3 :=
  match value with
  | LuaValue.table _ =>
    match lua_tonumber' (luaOr (value.getField "x") (value.getField "X")),
          lua_tonumber' (luaOr (value.getField "y") (value.getField "Y")),
          lua_tonumber' (luaOr (value.getField "z") (value.getField "Z")) with
    | some x, some y, some z => some ⟨x, y, z⟩
    | _, _, _ => none
  | _ => none
where
  /-- Embeds `type(v) == "number"` guard: only genuine numbers pass (no string
  coercion here). -/
  lua_tonumber' : LuaValue → Option ℚ
  | LuaValue.num q => some q
  | _ => none

/-- Embeds `__to_color3` of the helper prelude: like `luauToVec3` but reading
`r`/`R`, `g`/`G`, `b`/`B` and dividing each channel by 255. -/
def luauToColor3 (value : LuaValue) : Option Vec3 :=
  match value with
  | LuaValue.table _ =>
    match numOnly (luaOr (value.getField "r") (value.getField "R")),
          numOnly (luaOr (value.getField "g") (value.getField "G")),
          numOnly (luaOr (value.getField "b") (value.getField "B")) with
    | some r, some g, some b => some ⟨r / 255, g / 255, b / 255⟩
    | _, _, _ => none
  | _ => none
where
  numOnly : LuaValue → Option ℚ
  | LuaValue.num q => some q
  | _ => none

/-- JSON encoding of a recorded vector change (`__copy_vec3` followed by
the prelude's encoder). -/
def jsonOfVec3 (v : Vec3) : Json :=
  Json.obj [("x", Json.num v.x), ("y", Json.num v.y), ("z", Json.num v.z)]

/-- Replaces the data of the object `name` in the helper state's object
table (the in-place mutation `data.<field> = value`). -/
def luauSetObject (objects : List (String × LuauObjectData)) (name : String)
    (f : LuauObjectData → LuauObjectData) : List (String × LuauObjectData) :=
  objects.map fun p => if p.1 == name then (p.1, f p.2) else p

/-- The `__newindex` metamethod of the object proxy in `LUAU_HELPERS`: a
write to a field of object `name`.  When the object is absent from the
table the write returns immediately (nothing recorded, nothing changed);
when the payload fails shape validation it is dropped; otherwise the object
data is updated and a change event appended.  Writes to keys other than
the six scene fields fall through to `rawset` on the proxy, which touches
neither the object table nor the change list. -/
def luauNewindex (st : LuauScriptState) (name : String) (key : String)
    (value : LuaValue) : LuauScriptState :=
  match st.objects.find? (fun p => p.1 == name) with
  | none => st
  | some _ =>
    if key == "position" then
      match luauToVec3 value with
      | some vec =>
        { objects := luauSetObject st.objects name fun d => { d with position := vec }
          changes := st.changes ++ [⟨name, "position", jsonOfVec3 vec⟩] }
      | none => st
    else if key == "rotation" then
      match luauToVec3 value with
      | some vec =>
        { objects := luauSetObject st.objects name fun d => { d with rotation := vec }
          changes := st.changes ++ [⟨name, "rotation", jsonOfVec3 vec⟩] }
      | none => st
    else if key == "scale" then
      match luauToVec3 value with
      | some vec =>
        { objects := luauSetObject st.objects name fun d => { d with scale := vec }
          changes := st.changes ++ [⟨name, "scale", jsonOfVec3 vec⟩] }
      | none => st
    else if key == "color" then
      match luauToColor3 value with
      | some col =>
        { objects := luauSetObject st.objects name fun d => { d with color := col }
          changes := st.changes ++ [⟨name, "color", jsonOfVec3 col⟩] }
      | none => st
    else if key == "fov" then
      match value with
      | LuaValue.num v =>
        { objects := luauSetObject st.objects name fun d => { d with fov := v }
          changes := st.changes ++ [⟨name, "fov", Json.num v⟩] }
      | _ => st
    else if key == "intensity" then
      match value with
      | LuaValue.num v =>
        { objects := luauSetObject st.objects name fun d => { d with intensity := v }
          changes := st.changes ++ [⟨name, "intensity", Json.num v⟩] }
      | _ => st
    else st

/-! ## Color conversion (`LuaColor3` in `src/scripting/bindings.rs`)

`f32` arithmetic is modelled over the rationals: every `f32` operation
rounds its exact result, and the rounding step is an arbitrary function
whose relative error is bounded by the `f32` unit roundoff `2^-24`.
(`fl = id` recovers exact arithmetic and is itself a valid rounding.) -/

/-- The `f32` unit roundoff. -/
def float32RelBound : ℚ := 1 / 2 ^ 24

/-- A faithful model of `f32` rounding: the relative error of each rounded
operation result is at most the unit roundoff. -/
def IsFloat32Rounding (fl : ℚ → ℚ) : Prop :=
  ∀ x : ℚ, |fl x - x| ≤ float32RelBound * |x|

/-- Embeds `LuaColor3::from_rgb`: `Vec3::new(r, g, b) / 255.0`, each channel
division rounded in `f32`. -/
def luaColor3_from_rgb (fl : ℚ → ℚ) (r g b : ℚ) : Vec3 :=
  ⟨fl (r / 255), fl (g / 255), fl (b / 255)⟩

/-- Embeds `LuaColor3` field getter `R`: `this.0.x * 255.0`, rounded in `f32`. -/
def luaColor3_get_R (fl : ℚ → ℚ) (c : Vec3) : ℚ := fl (c.x * 255)

/-- Embeds `LuaColor3` field getter `G`. -/
def luaColor3_get_G (fl : ℚ → ℚ) (c : Vec3) : ℚ := fl (c.y * 255)

/-- Embeds `LuaColor3` field getter `B`. -/
def luaColor3_get_B (fl : ℚ → ℚ) (c : Vec3) : ℚ := fl (c.z * 255)

/-- The script-visible color round trip: construct `Color3.new(r, g, b)`,
store it on the object `name` through the `color` setter (the setter stores
`as_vec3`, the normalized value, with no further arithmetic), then read
`object.color` back through the proxy (the getter wraps the stored vector
with `from_normalized`, the identity, and multiplies each channel by 255).
Returns `none` when the object does not exist. -/
def color_round_trip (fl : ℚ → ℚ) (m : DataModel) (name : String)
    (r g b : ℚ) : Option (ℚ × ℚ × ℚ) :=
  let stored := (m.set_color name (luaColor3_from_rgb fl r g b)).1
  (stored.get name).map fun o =>
    (luaColor3_get_R fl o.color, luaColor3_get_G fl o.color,
      luaColor3_get_B fl o.color)

/-! ## Input layer (`src/input.rs`)

Rust string operations index bytes; the embedding works on the character
list, which coincides with the source on ASCII names (all names the claims
and the parsing tables mention are ASCII). -/

/-- Friendly names for a subset of keyboard keys (`NamedKey`). -/
inductive NamedKey where
  | space | enter | tab | left | right | up | down | escape | backspace
  | home | endKey | pageUp | pageDown | leftShift | rightShift
  | leftCtrl | rightCtrl | leftAlt | rightAlt
deriving DecidableEq, BEq, Repr

/-- Identifier for a physical keyboard key (`KeyCode`). -/
inductive KeyCode where
  | named (key : NamedKey)
  | character (c : Char)
  | digit (d : Nat)
  | function (index : Nat)
deriving DecidableEq, BEq, Repr

/-- Identifier for a mouse button (`MouseButton`, left button is zero). -/
structure MouseButton where
  index : Nat
deriving DecidableEq, BEq, Repr

/-- Embeds `MouseButton::LEFT`. -/
def MouseButton.left : MouseButton := ⟨0⟩

/-- Embeds `parse_named_key`: exact (case-sensitive) match against the table of
named-key strings. -/
def parse_named_key (name : String) : Option KeyCode :=
  if name == "Space" then some (KeyCode.named NamedKey.space)
  else if name == "Enter" || name == "Return" then some (KeyCode.named NamedKey.enter)
  else if name == "Tab" then some (KeyCode.named NamedKey.tab)
  else if name == "Left" then some (KeyCode.named NamedKey.left)
  else if name == "Right" then some (KeyCode.named NamedKey.right)
  else if name == "Up" then some (KeyCode.named NamedKey.up)
  else if name == "Down" then some (KeyCode.named NamedKey.down)
  else if name == "Escape" || name == "Esc" then some (KeyCode.named NamedKey.escape)
  else if name == "Backspace" then some (KeyCode.named NamedKey.backspace)
  else if name == "Home" then some (KeyCode.named NamedKey.home)
  else if name == "End" then some (KeyCode.named NamedKey.endKey)
  else if name == "PageUp" then some (KeyCode.named NamedKey.pageUp)
  else if name == "PageDown" then some (KeyCode.named NamedKey.pageDown)
  else if name == "LeftShift" || name == "LShift" then some (KeyCode.named NamedKey.leftShift)
  else if name == "RightShift" || name == "RShift" then some (KeyCode.named NamedKey.rightShift)
  else if name == "LeftCtrl" || name == "LControl" then some (KeyCode.named NamedKey.leftCtrl)
  else if name == "RightCtrl" || name == "RControl" then some (KeyCode.named NamedKey.rightCtrl)
  else if name == "LeftAlt" || name == "LAlt" then some (KeyCode.named NamedKey.leftAlt)
  else if name == "RightAlt" || name == "RAlt" then some (KeyCode.named NamedKey.rightAlt)
  else none

/-- Embeds `char::is_ascii_alphabetic`. -/
def isAsciiAlphabetic (c : Char) : Bool :=
  ('A' ≤ c && c ≤ 'Z') || ('a' ≤ c && c ≤ 'z')

/-- Embeds `char::is_ascii_digit`. -/
def isAsciiDigit (c : Char) : Bool := '0' ≤ c && c ≤ '9'

/-- Embeds `char::to_ascii_uppercase`. -/
def toAsciiUppercase (c : Char) : Char :=
  if 'a' ≤ c && c ≤ 'z' then Char.ofNat (c.toNat - 32) else c

/-- Embeds `char::to_ascii_lowercase`. -/
def toAsciiLowercase (c : Char) : Char :=
  if 'A' ≤ c && c ≤ 'Z' then Char.ofNat (c.toNat + 32) else c

/-- Embeds `str::parse::<u8>`: an optional leading plus sign, then one or more
ASCII digits whose value fits in `u8` (at most 255). -/
def parseU8Chars (cs : List Char) : Option Nat :=
  let digits := match cs with
    | '+' :: rest => rest
    | rest => rest
  if digits.isEmpty then none
  else if digits.all isAsciiDigit then
    let v := digits.foldl (fun acc c => acc * 10 + (c.toNat - 48)) 0
    if v ≤ 255 then some v else none
  else none

/-- Embeds `KeyCode::from_name`: named keys first; then single ASCII letters
(uppercased) and single ASCII digits; then `F<n>`/`f<n>` function keys with
`1 ≤ n ≤ 25`. -/
def KeyCode.from_name (name : String) : Option KeyCode :=
  match parse_named_key name with
  | some key => some key
  | none =>
    let cs := name.data
    match cs with
    | [c] =>
      if isAsciiAlphabetic c then some (KeyCode.character (toAsciiUppercase c))
      else if isAsciiDigit c then some (KeyCode.digit (c.toNat - 48))
      else fKey cs
    | _ => fKey cs
where
  /-- the `strip_prefix('F').or(strip_prefix('f'))` + `parse::<u8>` path -/
  fKey (cs : List Char) : Option KeyCode :=
    match cs with
    | 'F' :: rest | 'f' :: rest =>
      match parseU8Chars rest with
      | some index => if 1 ≤ index ∧ index ≤ 25 then some (KeyCode.function index) else none
      | none => none
    | _ => none

/-- Result of a Rust computation that can panic (an out-of-contract slice
index aborts the thread instead of returning). -/
inductive PanicOr (α : Type) where
  | panicked (msg : String)
  | value (a : α)
deriving DecidableEq, Repr

/-- A UTF-8 continuation byte. -/
def isContByte (b : Nat) : Bool := 128 ≤ b && b ≤ 191

/-- UTF-8 encoding of one character (Unicode scalar value to bytes). -/
def utf8EncodeChar (c : Char) : List Nat :=
  let n := c.toNat
  if n < 128 then [n]
  else if n < 2048 then [192 + n / 64, 128 + n % 64]
  else if n < 65536 then
    [224 + n / 4096, 128 + (n / 64) % 64, 128 + n % 64]
  else
    [240 + n / 262144, 128 + (n / 4096) % 64, 128 + (n / 64) % 64,
      128 + n % 64]

/-- UTF-8 encoding of a character list. -/
def utf8EncodeList : List Char → List Nat
  | [] => []
  | c :: cs => utf8EncodeChar c ++ utf8EncodeList cs

/-- The UTF-8 bytes of a string — the representation a Rust `&str` indexes
and slices by. -/
def utf8Encode (s : String) : List Nat := utf8EncodeList s.data

/-- Embeds `str::is_char_boundary` at position `p` of the byte sequence:
position zero, one past the end, or a byte that is not a continuation
byte. -/
def is_char_boundary (bs : List Nat) (p : Nat) : Bool :=
  if p == 0 then true
  else
    match bs.drop p with
    | [] => p == bs.length
    | b :: _ => !isContByte b

/-- Embeds `u8::to_ascii_lowercase` on a byte. -/
def toAsciiLowerByte (b : Nat) : Nat :=
  if 65 ≤ b && b ≤ 90 then b + 32 else b

/-- Embeds `eq_ignore_ascii_case` on byte slices. -/
def eqIgnoreAsciiCaseBytes (a b : List Nat) : Bool :=
  a.length == b.length &&
    (List.zip a b).all fun p => toAsciiLowerByte p.1 == toAsciiLowerByte p.2

/-- Embeds `str::parse::<u8>` on the slice's bytes: an optional leading
plus sign, then one or more ASCII digit bytes whose value fits in `u8`. -/
def parseU8Bytes (bs : List Nat) : Option Nat :=
  let digits : List Nat := match bs with
    | b :: rest => if b == 43 then rest else b :: rest
    | [] => []
  if digits.isEmpty then none
  else if digits.all (fun b => 48 ≤ b && b ≤ 57) then
    let v := digits.foldl (fun acc b => acc * 10 + (b - 48)) 0
    if v ≤ 255 then some v else none
  else none

/-- Embeds `parse_mouse_button`: names of at least five bytes whose first
five bytes match `"mouse"` case-insensitively; an empty suffix is the left
button, otherwise the suffix must parse as a `u8` and is mapped to the
zero-based index with a saturating decrement.  The source takes the first
five bytes with the slice `name[..5]`, which panics when byte index 5 is
not a character boundary (it falls inside a multi-byte character); the
embedding surfaces that path as `PanicOr.panicked`. -/
def parse_mouse_button (name : String) : PanicOr (Option MouseButton) :=
  let bs := utf8Encode name
  if bs.length < 5 then PanicOr.value none
  else if !is_char_boundary bs 5 then
    PanicOr.panicked "byte index 5 is not a char boundary"
  else if !eqIgnoreAsciiCaseBytes (bs.take 5) [109, 111, 117, 115, 101] then
    PanicOr.value none
  else
    let suffixBytes := bs.drop 5
    if suffixBytes.isEmpty then PanicOr.value (some MouseButton.left)
    else
      match parseU8Bytes suffixBytes with
      | some index => PanicOr.value (some ⟨index - 1⟩)
      | none => PanicOr.value none

/-- Embeds `InputName`: the two kinds of input a symbolic name can denote. -/
inductive InputName where
  | key (k : KeyCode)
  | mouse (b : MouseButton)
deriving DecidableEq, Repr

/-- Embeds `parse_input_name`: mouse buttons take priority, then keys; a
panic in the mouse-name check propagates (it unwinds before the key parse
runs). -/
def parse_input_name (name : String) : PanicOr (Option InputName) :=
  match parse_mouse_button name with
  | PanicOr.panicked msg => PanicOr.panicked msg
  | PanicOr.value (some button) => PanicOr.value (some (InputName.mouse button))
  | PanicOr.value none =>
    PanicOr.value ((KeyCode.from_name name).map InputName.key)

/-- The thread-safe input snapshot (`InputState`): the sets of currently
held keys and mouse buttons and the last cursor position, modelled as
lists and a pair. -/
structure InputState where
  keys : List KeyCode
  mouse_buttons : List MouseButton
  mouse_position : ℚ × ℚ

/-- Embeds `InputState::is_key_down`. -/
def InputState.is_key_down (st : InputState) (key : KeyCode) : Bool :=
  st.keys.contains key

/-- Embeds `InputState::is_mouse_button_down`. -/
def InputState.is_mouse_button_down (st : InputState) (button : MouseButton) : Bool :=
  st.mouse_buttons.contains button

/-- Embeds `InputState::is_key_down_by_name`: parse the symbolic name, then test
the matching set; unparsable names give `false`; a panic in the name parse
propagates. -/
def InputState.is_key_down_by_name (st : InputState) (name : String) :
    PanicOr Bool :=
  match parse_input_name name with
  | PanicOr.panicked msg => PanicOr.panicked msg
  | PanicOr.value (some (InputName.key key)) => PanicOr.value (st.is_key_down key)
  | PanicOr.value (some (InputName.mouse button)) =>
    PanicOr.value (st.is_mouse_button_down button)
  | PanicOr.value none => PanicOr.value false

/-- The status of the input denoted by a parsed name. -/
def InputState.inputDown (st : InputState) : InputName → Bool
  | InputName.key k => st.is_key_down k
  | InputName.mouse b => st.is_mouse_button_down b

/-! ## Native thread-based manager (`src/scripting/manager.rs`)

A spawned script thread is modelled by the outcome its `JoinHandle` will
eventually deliver; the manager state is the running flag plus the vector
of pending handles. -/

/-- What joining one script thread yields: `Ok(Ok(()))`, `Ok(Err(err))`
(script-level failure, message as the joined error prints it), or
`Err(panic)` (the thread panicked). -/
inductive ThreadOutcome where
  | success
  | failure (msg : String)
  | panicked (info : String)
deriving DecidableEq, Repr

/-- The error string `join_threads` collects for one joined handle, if
any: a failing script contributes its message, a panicking thread the
formatted panic note, a successful one nothing. -/
def outcomeError : ThreadOutcome → Option String
  | ThreadOutcome.success => none
  | ThreadOutcome.failure msg => some msg
  | ThreadOutcome.panicked info => some ("script thread panicked: " ++ info)

/-- The distinguished cancellation error raised by the instruction-count
hook when the cleared running flag is observed (`run_script_thread`). -/
def cancellation_message : String := "script stopped by host"

/-- Manager state visible to `start`/`wait`/`stop`: the shared running
flag and the pending thread handles (each carrying its eventual outcome). -/
structure ManagerState where
  running : Bool
  threads : List ThreadOutcome
deriving DecidableEq, Repr

/-- Embeds `LuaScriptManager::join_threads`: with no pending handles it returns
`Ok` immediately; otherwise it takes and joins every handle, collecting
every error; when no handle erred it clears the running flag and returns
`Ok`, otherwise it returns the errors joined with `"; "`.  The returned
state is the manager after the call. -/
def join_threads (st : ManagerState) : ManagerState × Except String Unit :=
  if st.threads.isEmpty then (st, Except.ok ())
  else
    let errors := st.threads.filterMap outcomeError
    if errors.isEmpty then
      ({ running := false, threads := [] }, Except.ok ())
    else
      ({ st with threads := [] },
        Except.error (String.intercalate "; " errors))

/-- Embeds `LuaScriptManager::stop`: clear the running flag, then join. -/
def LuaScriptManager.stop (st : ManagerState) : ManagerState × Except String Unit :=
  join_threads { st with running := false }

/-- Embeds `LuaScriptManager::wait`: join without touching the flag first. -/
def LuaScriptManager.wait (st : ManagerState) : ManagerState × Except String Unit :=
  join_threads st

/-- Embeds `LuaScriptManager::start`: first `stop()` (propagating its error),
then filter the archive entries to the reserved `scripts/` prefix; with no
matching entry return a zero count without setting the running flag;
otherwise set the flag and spawn one thread per entry.  `runThread` gives
the outcome the thread spawned for an entry eventually produces. -/
def LuaScriptManager.start (st : ManagerState) (archiveEntries : List String)
    (runThread : String → ThreadOutcome) : ManagerState × Except String Nat :=
  let stopped := LuaScriptManager.stop st
  match stopped.2 with
  | Except.error e => (stopped.1, Except.error e)
  | Except.ok () =>
    let entries := archiveEntries.filter fun entryName =>
      "scripts/".data.isPrefixOf entryName.data
    if entries.isEmpty then (stopped.1, Except.ok 0)
    else
      let launched := entries.map runThread
      ({ running := true, threads := launched }, Except.ok launched.length)

/-! ## Script thread source loading (`run_script_thread`)

`String::from_utf8` succeeds exactly on valid UTF-8 byte sequences;
`utf8Valid` is the standard validation (RFC 3629: no continuation-byte
prefixes, no overlong forms, no surrogates, nothing above U+10FFFF). -/

/-- UTF-8 validity of a byte sequence, as `String::from_utf8` checks it. -/
def utf8Valid : List Nat → Bool
  | [] => true
  | b :: rest =>
    if b ≤ 127 then utf8Valid rest
    else if 194 ≤ b && b ≤ 223 then
      match rest with
      | b1 :: rest2 => isContByte b1 && utf8Valid rest2
      | [] => false
    else if b == 224 then
      match rest with
      | b1 :: b2 :: rest3 =>
        (160 ≤ b1 && b1 ≤ 191) && isContByte b2 && utf8Valid rest3
      | _ => false
    else if (225 ≤ b && b ≤ 236) || b == 238 || b == 239 then
      match rest with
      | b1 :: b2 :: rest3 => isContByte b1 && isContByte b2 && utf8Valid rest3
      | _ => false
    else if b == 237 then
      match rest with
      | b1 :: b2 :: rest3 =>
        (128 ≤ b1 && b1 ≤ 159) && isContByte b2 && utf8Valid rest3
      | _ => false
    else if b == 240 then
      match rest with
      | b1 :: b2 :: b3 :: rest4 =>
        (144 ≤ b1 && b1 ≤ 191) && isContByte b2 && isContByte b3 && utf8Valid rest4
      | _ => false
    else if 241 ≤ b && b ≤ 243 then
      match rest with
      | b1 :: b2 :: b3 :: rest4 =>
        isContByte b1 && isContByte b2 && isContByte b3 && utf8Valid rest4
      | _ => false
    else if b == 244 then
      match rest with
      | b1 :: b2 :: b3 :: rest4 =>
        (128 ≤ b1 && b1 ≤ 143) && isContByte b2 && isContByte b3 && utf8Valid rest4
      | _ => false
    else false

/-- The Scene Store effect trace of one script thread: the store mutations
it performs, in order, each as a store transformer. -/
def StoreTrace : Type := List (DataModel → DataModel)

/-- Applies a thread's store-effect trace to the Scene Store. -/
def applyStoreTrace (m : DataModel) (ops : StoreTrace) : DataModel :=
  ops.foldl (fun acc f => f acc) m

/-- Embeds `run_script_thread`, source-loading part: the extracted bytes must be
valid UTF-8, otherwise the thread fails with the `"<name> is not UTF-8"`
error before the script runs (so it performs no Scene Store operation);
on valid sources the interpreter runs the script (`exec`), producing the
thread's outcome and its store-effect trace. -/
def run_script_thread (entryName : String) (sourceBytes : List Nat)
    (exec : List Nat → ThreadOutcome × StoreTrace) : ThreadOutcome × StoreTrace :=
  if utf8Valid sourceBytes then exec sourceBytes
  else (ThreadOutcome.failure (entryName ++ " is not UTF-8"), [])

/-! ## Helper lemmas -/

/-- A store mutation on a name not present in the store leaves the store
unchanged and reports failure. -/
theorem DataModel.update_not_found (m : DataModel) (name : String)
    (f : SceneObject → SceneObject) (h : m.get name = none) :
    m.update name f = (m, false) := by
  induction m with
  | nil => rfl
  | cons o rest ih =>
    simp only [DataModel.get, List.find?] at h
    by_cases ho : (o.name == name) = true
    · rw [ho] at h; exact absurd h (by simp)
    · rw [Bool.not_eq_true] at ho
      rw [ho] at h
      simp only [DataModel.update, ho, Bool.false_eq_true, if_false]
      rw [ih h]

/-- A store mutation that preserves object names updates exactly the first
object matching the name, which a subsequent get observes. -/
theorem DataModel.get_update_found (m : DataModel) (name : String)
    (f : SceneObject → SceneObject) (obj : SceneObject)
    (hf : ∀ o, (f o).name = o.name) (h : m.get name = some obj) :
    (m.update name f).1.get name = some (f obj) := by
  induction m with
  | nil => simp [DataModel.get, List.find?] at h
  | cons o rest ih =>
    simp only [DataModel.get, List.find?] at h
    by_cases ho : (o.name == name) = true
    · rw [ho] at h
      simp only [Option.some.injEq] at h
      subst h
      simp only [DataModel.update, ho, if_true, DataModel.get, List.find?,
        hf o, ho]
    · rw [Bool.not_eq_true] at ho
      rw [ho] at h
      have ih2 := ih h
      simp only [DataModel.update, ho, Bool.false_eq_true, if_false]
      simp only [DataModel.get, List.find?, ho] at ih2 ⊢
      exact ih2

/-- A name absent from the Scene Store is absent from the serialized object
table handed to a cooperative script. -/
theorem emit_object_table_find_none (m : DataModel) (name : String)
    (h : m.get name = none) :
    (emit_object_table m).find? (fun p => p.1 == name) = none := by
  induction m with
  | nil => rfl
  | cons o rest ih =>
    simp only [DataModel.get, List.find?] at h
    by_cases ho : (o.name == name) = true
    · rw [ho] at h; exact absurd h (by simp)
    · rw [Bool.not_eq_true] at ho
      rw [ho] at h
      have ih2 := ih h
      simp only [emit_object_table, DataModel.all_objects, List.map,
        List.find?, ho] at ih2 ⊢
      exact ih2

/-- Embeds `join_threads` succeeds exactly when no joined thread contributed an
error. -/
theorem join_threads_ok_iff (st : ManagerState) :
    (join_threads st).2 = Except.ok () ↔
      ∀ t ∈ st.threads, t = ThreadOutcome.success := by
  simp only [join_threads]
  by_cases he : st.threads.isEmpty
  · rw [if_pos he]
    rw [List.isEmpty_iff] at he
    simp [he]
  · rw [if_neg he]
    by_cases herr : (st.threads.filterMap outcomeError).isEmpty
    · rw [if_pos herr]
      rw [List.isEmpty_iff, List.filterMap_eq_nil_iff] at herr
      simp only [true_iff]
      intro t ht
      have := herr t ht
      cases t with
      | success => rfl
      | failure msg => simp [outcomeError] at this
      | panicked info => simp [outcomeError] at this
    · rw [if_neg herr]
      refine ⟨fun hcontra => absurd hcontra (by simp), fun hall => absurd ?_ herr⟩
      rw [List.isEmpty_iff, List.filterMap_eq_nil_iff]
      intro t ht
      rw [hall t ht]
      rfl

/-- Embeds `join_threads` always leaves the running flag it received cleared when
it was cleared on entry, and always empties the handle vector. -/
theorem join_threads_state (st : ManagerState) (h : st.running = false) :
    (join_threads st).1 = { running := false, threads := [] } := by
  simp only [join_threads]
  by_cases he : st.threads.isEmpty
  · rw [if_pos he]
    rw [List.isEmpty_iff] at he
    cases st
    simp_all
  · rw [if_neg he]
    by_cases herr : (st.threads.filterMap outcomeError).isEmpty
    · rw [if_pos herr]
    · rw [if_neg herr]
      cases st
      simp_all

theorem sleepTotal_nil : sleepTotal [] = 0 := rfl

theorem sleepTotal_check (b : Bool) (tr : List WaitEvent) :
    sleepTotal (WaitEvent.check b :: tr) = sleepTotal tr := rfl

theorem sleepTotal_sleep (n : Nat) (tr : List WaitEvent) :
    sleepTotal (WaitEvent.sleep n :: tr) = n + sleepTotal tr := by
  simp [sleepTotal, List.filterMap]

/-- Full behaviour of the `wait` slice loop: the trace is properly sliced
(flag check before every slice, slices of 1–10 ms, no slice after a failed
check), a normal return sleeps exactly the requested total, an abnormal
return is the distinguished cancellation error with a strictly shorter
sleep, a never-cleared flag gives a normal return, and when the j-th check
observes the cleared flag at most `10 * j` ms were slept. -/
theorem waitLoop_spec (flag : Nat → Bool) (r : Nat) :
    ∀ k, SlicedTrace (waitLoop flag k r).1 ∧
      ((waitLoop flag k r).2 = Except.ok () →
        sleepTotal (waitLoop flag k r).1 = r) ∧
      ((waitLoop flag k r).2 ≠ Except.ok () →
        (waitLoop flag k r).2 = Except.error "wait interrupted" ∧
          sleepTotal (waitLoop flag k r).1 < r) ∧
      ((∀ j, flag j = true) → (waitLoop flag k r).2 = Except.ok ()) ∧
      (∀ j, flag (k + j) = false → sleepTotal (waitLoop flag k r).1 ≤ 10 * j) := by
  induction r using Nat.strong_induction_on with
  | _ r ih =>
    intro k
    by_cases hr : r = 0
    · subst hr
      rw [waitLoop]
      rw [dif_pos rfl]
      exact ⟨SlicedTrace.nil, fun _ => rfl, fun hc => absurd rfl hc,
        fun _ => rfl, fun j _ => by simp [sleepTotal_nil]⟩
    · by_cases hf : flag k = true
      · have hs1 : 1 ≤ min r 10 := by omega
        have hs2 : min r 10 ≤ 10 := Nat.min_le_right r 10
        have hs3 : min r 10 ≤ r := Nat.min_le_left r 10
        have hlt : r - min r 10 < r := by omega
        obtain ⟨ihA, ihB, ihC, ihD, ihE⟩ := ih (r - min r 10) hlt (k + 1)
        have heq : waitLoop flag k r =
            (WaitEvent.check true :: WaitEvent.sleep (min r 10) ::
              (waitLoop flag (k + 1) (r - min r 10)).1,
              (waitLoop flag (k + 1) (r - min r 10)).2) := by
          rw [waitLoop]
          rw [dif_neg hr, if_pos hf]
        rw [heq]
        refine ⟨?_, ?_, ?_, ?_, ?_⟩
        · exact SlicedTrace.slice (min r 10) _ hs1 hs2 ihA
        · intro hok
          rw [sleepTotal_check, sleepTotal_sleep]
          have := ihB hok
          omega
        · intro hbad
          obtain ⟨e1, e2⟩ := ihC hbad
          rw [sleepTotal_check, sleepTotal_sleep]
          exact ⟨e1, by omega⟩
        · exact ihD
        · intro j hj
          rw [sleepTotal_check, sleepTotal_sleep]
          cases j with
          | zero => rw [Nat.add_zero] at hj; rw [hj] at hf; cases hf
          | succ j2 =>
            have hj2 : flag (k + 1 + j2) = false := by
              rw [show k + 1 + j2 = k + (j2 + 1) by omega]
              exact hj
            have := ihE j2 hj2
            omega
      · rw [Bool.not_eq_true] at hf
        have heq : waitLoop flag k r =
            ([WaitEvent.check false], Except.error "wait interrupted") := by
          rw [waitLoop]
          rw [dif_neg hr, hf]
          rfl
        rw [heq]
        refine ⟨SlicedTrace.abort, ?_, ?_, ?_, ?_⟩
        · intro hok; cases hok
        · intro _
          refine ⟨rfl, ?_⟩
          rw [sleepTotal_check, sleepTotal_nil]
          omega
        · intro hall
          rw [hall k] at hf
          cases hf
        · intro j _
          rw [sleepTotal_check, sleepTotal_nil]
          omega

/-- Reading an object back right after a color write observes exactly the
written color on that object. -/
theorem get_set_color (m : DataModel) (name : String) (obj : SceneObject)
    (v : Vec3) (h : m.get name = some obj) :
    (m.set_color name v).1.get name = some { obj with color := v } :=
  DataModel.get_update_found m name _ obj (fun _ => rfl) h

/-- One color channel's round trip: dividing by 255 (rounded), multiplying
by 255 (rounded) recovers the channel within `1/255` for any rounding with
the `f32` relative-error bound. -/
theorem float32_color_channel_bound (fl : ℚ → ℚ) (x : ℚ)
    (hfl : IsFloat32Rounding fl) (hx0 : 0 ≤ x) (hx1 : x ≤ 255) :
    |fl (fl (x / 255) * 255) - x| ≤ 1 / 255 := by
  have heps : float32RelBound = 1 / 16777216 := by norm_num [float32RelBound]
  set u : ℚ := x / 255 with hu
  have hu0 : 0 ≤ u := by positivity
  have hu1 : u ≤ 1 := by
    rw [hu, div_le_one (by norm_num : (0:ℚ) < 255)]
    exact hx1
  have hxu : x = 255 * u := by rw [hu]; field_simp
  have h1 := hfl u
  rw [heps, abs_of_nonneg hu0] at h1
  rw [abs_le] at h1
  have ha0 : 0 ≤ fl u := by linarith [h1.1]
  have h2 := hfl (fl u * 255)
  rw [heps, abs_of_nonneg (by positivity : (0:ℚ) ≤ fl u * 255)] at h2
  rw [abs_le] at h2
  rw [abs_le, hxu]
  constructor
  · linarith [h1.1, h1.2, h2.1, h2.2]
  · linarith [h1.1, h1.2, h2.1, h2.2]

/-! ## Claim theorems -/

/-- C5: for channel values in `[0, 255]`, constructing a color with the
script-side constructor (which stores the value divided by 255), storing
it on an existing object, and reading it back through the object proxy
(which multiplies the stored normalized value by 255) returns each channel
within `1/255` of the original, for every rounding with the `f32`
relative-error bound. -/
theorem c5_color_round_trip (fl : ℚ → ℚ) (m : DataModel) (name : String)
    (obj : SceneObject) (r g b : ℚ)
    (hfl : IsFloat32Rounding fl) (hobj : m.get name = some obj)
    (hr0 : 0 ≤ r) (hr1 : r ≤ 255) (hg0 : 0 ≤ g) (hg1 : g ≤ 255)
    (hb0 : 0 ≤ b) (hb1 : b ≤ 255) :
    color_round_trip fl m name r g b =
      some (fl (fl (r / 255) * 255), fl (fl (g / 255) * 255),
        fl (fl (b / 255) * 255)) ∧
    |fl (fl (r / 255) * 255) - r| ≤ 1 / 255 ∧
    |fl (fl (g / 255) * 255) - g| ≤ 1 / 255 ∧
    |fl (fl (b / 255) * 255) - b| ≤ 1 / 255 := by
  refine ⟨?_, float32_color_channel_bound fl r hfl hr0 hr1,
    float32_color_channel_bound fl g hfl hg0 hg1,
    float32_color_channel_bound fl b hfl hb0 hb1⟩
  have hget := get_set_color m name obj (luaColor3_from_rgb fl r g b) hobj
  simp only [color_round_trip, hget, Option.map_some]
  rfl

/-- C5 witness: exact arithmetic (`fl = id`, a valid rounding) on the
channels (128, 64, 5) stored on the object "Cube" round-trips exactly. -/
theorem c5_witness :
    IsFloat32Rounding id ∧
    DataModel.get [{ SceneObject.default with name := "Cube" }] "Cube" =
      some { SceneObject.default with name := "Cube" } ∧
    (color_round_trip id [{ SceneObject.default with name := "Cube" }] "Cube"
        128 64 5 =
      some (id (id (128 / 255) * 255), id (id (64 / 255) * 255),
        id (id (5 / 255) * 255)) ∧
    |id (id ((128:ℚ) / 255) * 255) - 128| ≤ 1 / 255 ∧
    |id (id ((64:ℚ) / 255) * 255) - 64| ≤ 1 / 255 ∧
    |id (id ((5:ℚ) / 255) * 255) - 5| ≤ 1 / 255) :=
  ⟨fun x => by simp only [id, sub_self, abs_zero, float32RelBound]; positivity,
    by decide,
    c5_color_round_trip id [{ SceneObject.default with name := "Cube" }] "Cube"
      { SceneObject.default with name := "Cube" } 128 64 5
      (fun x => by simp only [id, sub_self, abs_zero, float32RelBound]; positivity)
      (by decide) (by norm_num) (by norm_num) (by norm_num) (by norm_num)
      (by norm_num) (by norm_num)⟩

/-- C4: for a positive duration the native `wait(d)` runs in slices of at
most 10 ms, re-loading the shared running flag before every slice (the
trace is a sliced trace); completing normally means exactly `d` ms were
slept, which happens whenever no load observes the cleared flag; observing
the cleared flag returns the distinguished `"wait interrupted"` runtime
error with strictly less than `d` ms slept — and when the j-th load is the
first to observe the cleared flag, at most `10 * j` ms were slept, so the
stop is honored within one slice. -/
theorem c4_wait_sleeps_in_slices (flag : Nat → Bool) (d : Nat) (hd : 0 < d) :
    SlicedTrace (wait_native flag (some d)).1 ∧
    ((wait_native flag (some d)).2 = Except.ok () →
      sleepTotal (wait_native flag (some d)).1 = d) ∧
    ((wait_native flag (some d)).2 ≠ Except.ok () →
      (wait_native flag (some d)).2 = Except.error "wait interrupted" ∧
        sleepTotal (wait_native flag (some d)).1 < d) ∧
    ((∀ j, flag j = true) → (wait_native flag (some d)).2 = Except.ok ()) ∧
    (∀ j, flag j = false → sleepTotal (wait_native flag (some d)).1 ≤ 10 * j) := by
  have hw : wait_native flag (some d) = waitLoop flag 0 d := by
    simp only [wait_native, Option.getD]
    rw [if_neg (by omega)]
  obtain ⟨hA, hB, hC, hD, hE⟩ := waitLoop_spec flag d 0
  rw [hw]
  refine ⟨hA, hB, hC, hD, ?_⟩
  intro j hj
  exact hE j (by rw [Nat.zero_add]; exact hj)

/-- C4 witness: `wait(25)` under a never-cleared flag completes normally in
sliced sleeps totalling 25 ms; the slice/check structure holds. -/
theorem c4_witness :
    0 < 25 ∧
    (SlicedTrace (wait_native (fun _ : Nat => true) (some 25)).1 ∧
    ((wait_native (fun _ : Nat => true) (some 25)).2 = Except.ok () →
      sleepTotal (wait_native (fun _ : Nat => true) (some 25)).1 = 25) ∧
    ((wait_native (fun _ : Nat => true) (some 25)).2 ≠ Except.ok () →
      (wait_native (fun _ : Nat => true) (some 25)).2 = Except.error "wait interrupted" ∧
        sleepTotal (wait_native (fun _ : Nat => true) (some 25)).1 < 25) ∧
    ((∀ j, (fun _ : Nat => true) j = true) →
      (wait_native (fun _ : Nat => true) (some 25)).2 = Except.ok ()) ∧
    (∀ j, (fun _ : Nat => true) j = false →
      sleepTotal (wait_native (fun _ : Nat => true) (some 25)).1 ≤ 10 * j)) :=
  ⟨by decide, c4_wait_sleeps_in_slices (fun _ : Nat => true) 25 (by decide)⟩

/-- C7 counterexample: the claim says a negative wait duration is clamped
to zero (rather than causing an error) in both strategies.  The
cooperative `wait` does clamp `-5` to a zero yield, but the native binding
declares its argument as an optional unsigned integer, so `-5` fails the
argument conversion and the script receives an error instead of a clamped
zero-duration wait. -/
theorem c7_counterexample :
    luau_wait (LuaValue.num (-5)) = 0 ∧
    (wait_binding (fun _ : Nat => true) (LuaValue.num (-5))).2 =
      Except.error "error converting Lua number to u64" := by
  constructor
  · have hcond : ((-5 : ℚ) < 0) = True := by norm_num
    simp [luau_wait, lua_tonumber, hcond]
  · have hcond : ¬ ((0:ℚ) ≤ -5 ∧ ((-5 : ℚ)).den = 1) := by
      intro hc
      norm_num at hc
    have hlu : luaToOptU64 (LuaValue.num (-5)) =
        Except.error "error converting Lua number to u64" := by
      simp only [luaToOptU64]
      rw [if_neg hcond]
    simp [wait_binding, hlu]

/-- C7 amended: `wait(0)` and `wait()` are a single fairness yield
returning normally in both strategies; negative or malformed (non-numeric)
durations are clamped to zero in the cooperative strategy (both by the
script-side `wait` helper and by the host's sanitation of the reported
wait), while the native binding accepts only `nil` or a value converting
to a nonnegative integer and raises a conversion error to the script for a
negative duration instead of clamping it. -/
theorem c7_amended_zero_yield_and_clamping (flag : Nat → Bool) (q w : ℚ)
    (v : LuaValue) (hq : q < 0) (hw : w < 0) (hv : lua_tonumber v = none) :
    wait_binding flag LuaValue.nil = ([WaitEvent.yieldNow], Except.ok ()) ∧
    wait_binding flag (LuaValue.num 0) = ([WaitEvent.yieldNow], Except.ok ()) ∧
    luau_wait LuaValue.nil = 0 ∧
    luau_wait (LuaValue.num 0) = 0 ∧
    luau_wait (LuaValue.num q) = 0 ∧
    luau_wait v = 0 ∧
    script_result_wait (some w) = 0 ∧
    script_result_wait none = 0 ∧
    (∃ e, (wait_binding flag (LuaValue.num q)).2 = Except.error e) := by
  refine ⟨rfl, ?_, rfl, ?_, ?_, ?_, ?_, ?_, ?_⟩
  · have hc : ((0:ℚ) ≤ 0 ∧ ((0:ℚ)).den = 1) := by norm_num
    simp only [wait_binding, luaToOptU64, if_pos hc]
    rfl
  · have hc : ¬ ((0:ℚ) < 0) := by norm_num
    simp [luau_wait, lua_tonumber, hc]
  · simp [luau_wait, lua_tonumber, if_pos hq]
  · simp [luau_wait, hv]
  · have hmax : max w 0 = 0 := max_eq_right hw.le
    have hmin : min (0:ℚ) 4294967295 = 0 := min_eq_left (by norm_num)
    simp only [script_result_wait, Option.getD, hmax, hmin]
    rfl
  · rfl
  · refine ⟨"error converting Lua number to u64", ?_⟩
    have hc : ¬ ((0:ℚ) ≤ q ∧ q.den = 1) := fun hc2 =>
      absurd hq (not_lt.mpr hc2.1)
    simp [wait_binding, luaToOptU64, hc]

/-- C7 witness: duration `-5` errs natively and clamps cooperatively;
`"abc"` is non-numeric and clamps to zero; the host clamps a reported
`-3`. -/
theorem c7_witness :
    ((-5 : ℚ) < 0 ∧ (-3 : ℚ) < 0 ∧ lua_tonumber (LuaValue.str "abc") = none) ∧
    (wait_binding (fun _ : Nat => true) LuaValue.nil =
        ([WaitEvent.yieldNow], Except.ok ()) ∧
    wait_binding (fun _ : Nat => true) (LuaValue.num 0) =
        ([WaitEvent.yieldNow], Except.ok ()) ∧
    luau_wait LuaValue.nil = 0 ∧
    luau_wait (LuaValue.num 0) = 0 ∧
    luau_wait (LuaValue.num (-5)) = 0 ∧
    luau_wait (LuaValue.str "abc") = 0 ∧
    script_result_wait (some (-3)) = 0 ∧
    script_result_wait none = 0 ∧
    (∃ e, (wait_binding (fun _ : Nat => true) (LuaValue.num (-5))).2 =
      Except.error e)) :=
  ⟨⟨by norm_num, by norm_num, by decide⟩,
    c7_amended_zero_yield_and_clamping (fun _ : Nat => true) (-5) (-3)
      (LuaValue.str "abc") (by norm_num) (by norm_num) (by decide)⟩

/-- C10: in the native strategy, a script-level `wait(0)` or `wait()` with
no argument performs a single thread yield and returns `Ok` without ever
loading the shared running flag (its trace holds no flag check), so even a
manager that has already been stopped sees no cancellation error from a
zero-duration wait. -/
theorem c10_zero_wait_never_consults_flag (flag : Nat → Bool) :
    wait_native flag none = ([WaitEvent.yieldNow], Except.ok ()) ∧
    wait_native flag (some 0) = ([WaitEvent.yieldNow], Except.ok ()) ∧
    (∀ e ∈ (wait_native flag (some 0)).1, ∀ b, e ≠ WaitEvent.check b) := by
  refine ⟨rfl, rfl, ?_⟩
  intro e he b
  have h1 : (wait_native flag (some 0)).1 = [WaitEvent.yieldNow] := rfl
  rw [h1, List.mem_singleton] at he
  subst he
  simp

/-- C10 witness: the stopped manager (constantly cleared flag) still gets a
clean `Ok` from a zero-duration wait. -/
theorem c10_witness :
    wait_native (fun _ => false) none = ([WaitEvent.yieldNow], Except.ok ()) ∧
    wait_native (fun _ => false) (some 0) = ([WaitEvent.yieldNow], Except.ok ()) ∧
    (∀ e ∈ (wait_native (fun _ => false) (some 0)).1, ∀ b, e ≠ WaitEvent.check b) :=
  c10_zero_wait_never_consults_flag (fun _ => false)

/-- C3 counterexample: the claim says the binding layer checks the running
flag before applying any script write, so that no write lands after the
flag is cleared.  In the code the `PlaceObject` setters never read the
flag: with the flag already cleared, a position write on the object "Cube"
still mutates the Scene Store. -/
theorem c3_counterexample :
    (placeObject_set_position
        { data_model := [{ SceneObject.default with name := "Cube" }],
          running := false }
        "Cube" ⟨1, 2, 3⟩).1 ≠
      [{ SceneObject.default with name := "Cube" }] := by
  decide

/-- C3 amended: the binding layer applies a script write unconditionally —
every setter's result is independent of the running flag.  Cancellation is
enforced elsewhere: the instruction-count hook (and the `wait` slices)
raise the distinguished cancellation error once the cleared flag is
observed, so a script stops at its next check, not before its next write. -/
theorem c3_amended_writes_not_gated_on_flag (m : DataModel) (name : String)
    (v : Vec3) (q : ℚ) (r1 r2 : Bool) :
    placeObject_set_position ⟨m, r1⟩ name v = placeObject_set_position ⟨m, r2⟩ name v ∧
    placeObject_set_rotation ⟨m, r1⟩ name v = placeObject_set_rotation ⟨m, r2⟩ name v ∧
    placeObject_set_scale ⟨m, r1⟩ name v = placeObject_set_scale ⟨m, r2⟩ name v ∧
    placeObject_set_color ⟨m, r1⟩ name v = placeObject_set_color ⟨m, r2⟩ name v ∧
    placeObject_set_fov ⟨m, r1⟩ name q = placeObject_set_fov ⟨m, r2⟩ name q ∧
    placeObject_set_intensity ⟨m, r1⟩ name q = placeObject_set_intensity ⟨m, r2⟩ name q ∧
    lua_hook_check false = Except.error cancellation_message ∧
    lua_hook_check true = Except.ok () :=
  ⟨rfl, rfl, rfl, rfl, rfl, rfl, rfl, rfl⟩

/-- C2 counterexample: a run whose only thread failed with exactly the
distinguished cancellation error.  The claim says such a stop is clean
(`Ok`); `stop()` actually surfaces the cancellation error, because
`join_threads` aggregates every error without filtering the cancellation
one. -/
theorem c2_counterexample :
    (∀ t ∈ [ThreadOutcome.failure cancellation_message],
      outcomeError t = some cancellation_message) ∧
    (LuaScriptManager.stop
        { running := true,
          threads := [ThreadOutcome.failure cancellation_message] }).2 =
      Except.error cancellation_message := by
  constructor
  · intro t ht
    simp only [List.mem_singleton] at ht
    subst ht
    rfl
  · rfl

/-- C2 amended: `stop()` clears the running flag and joins every script
thread, but the aggregate includes every failure, the distinguished
cancellation error among them: the result is `Ok` exactly when every
thread succeeded. -/
theorem c2_amended_stop_aggregates_all_errors (st : ManagerState) :
    (LuaScriptManager.stop st).1 = { running := false, threads := [] } ∧
    ((LuaScriptManager.stop st).2 = Except.ok () ↔
      ∀ t ∈ st.threads, t = ThreadOutcome.success) := by
  constructor
  · exact join_threads_state { st with running := false } rfl
  · exact join_threads_ok_iff { st with running := false }

/-- C2 amended witness: a concrete stop over one successful thread. -/
theorem c2_witness :
    (LuaScriptManager.stop
        { running := true, threads := [ThreadOutcome.success] }).1 =
      { running := false, threads := [] } ∧
    ((LuaScriptManager.stop
        { running := true, threads := [ThreadOutcome.success] }).2 =
          Except.ok () ↔
      ∀ t ∈ [ThreadOutcome.success], t = ThreadOutcome.success) :=
  c2_amended_stop_aggregates_all_errors
    { running := true, threads := [ThreadOutcome.success] }

/-- C3 amended witness: a concrete write is flag-independent and the hook
raises the cancellation error on the cleared flag. -/
theorem c3_witness :
    placeObject_set_position ⟨[{ SceneObject.default with name := "Cube" }], true⟩
        "Cube" ⟨1, 2, 3⟩ =
      placeObject_set_position ⟨[{ SceneObject.default with name := "Cube" }], false⟩
        "Cube" ⟨1, 2, 3⟩ ∧
    placeObject_set_rotation ⟨[{ SceneObject.default with name := "Cube" }], true⟩
        "Cube" ⟨1, 2, 3⟩ =
      placeObject_set_rotation ⟨[{ SceneObject.default with name := "Cube" }], false⟩
        "Cube" ⟨1, 2, 3⟩ ∧
    placeObject_set_scale ⟨[{ SceneObject.default with name := "Cube" }], true⟩
        "Cube" ⟨1, 2, 3⟩ =
      placeObject_set_scale ⟨[{ SceneObject.default with name := "Cube" }], false⟩
        "Cube" ⟨1, 2, 3⟩ ∧
    placeObject_set_color ⟨[{ SceneObject.default with name := "Cube" }], true⟩
        "Cube" ⟨1, 2, 3⟩ =
      placeObject_set_color ⟨[{ SceneObject.default with name := "Cube" }], false⟩
        "Cube" ⟨1, 2, 3⟩ ∧
    placeObject_set_fov ⟨[{ SceneObject.default with name := "Cube" }], true⟩
        "Cube" 7 =
      placeObject_set_fov ⟨[{ SceneObject.default with name := "Cube" }], false⟩
        "Cube" 7 ∧
    placeObject_set_intensity ⟨[{ SceneObject.default with name := "Cube" }], true⟩
        "Cube" 7 =
      placeObject_set_intensity ⟨[{ SceneObject.default with name := "Cube" }], false⟩
        "Cube" 7 ∧
    lua_hook_check false = Except.error cancellation_message ∧
    lua_hook_check true = Except.ok () :=
  c3_amended_writes_not_gated_on_flag
    [{ SceneObject.default with name := "Cube" }] "Cube" ⟨1, 2, 3⟩ 7 true false

/-- C6: an archive with no entry under the reserved `scripts/` prefix makes
`start()` on a fresh manager return a zero launched count with the running
flag still cleared and no pending thread; the following `stop()` and
`wait()` are no-ops returning `Ok` without joining anything. -/
theorem c6_no_scripts_start_noop (st : ManagerState)
    (archiveEntries : List String) (runThread : String → ThreadOutcome)
    (hfresh : st.threads = [])
    (hnone : ∀ e ∈ archiveEntries, "scripts/".data.isPrefixOf e.data = false) :
    LuaScriptManager.start st archiveEntries runThread =
        ({ running := false, threads := [] }, Except.ok 0) ∧
    LuaScriptManager.stop { running := false, threads := [] } =
        ({ running := false, threads := [] }, Except.ok ()) ∧
    LuaScriptManager.wait { running := false, threads := [] } =
        ({ running := false, threads := [] }, Except.ok ()) := by
  have hstop : LuaScriptManager.stop st =
      ({ running := false, threads := [] }, Except.ok ()) := by
    simp only [LuaScriptManager.stop, join_threads, hfresh]
    rfl
  have hfilter : (archiveEntries.filter fun entryName =>
      "scripts/".data.isPrefixOf entryName.data) = [] := by
    rw [List.filter_eq_nil_iff]
    intro a ha
    rw [hnone a ha]
    simp
  refine ⟨?_, rfl, rfl⟩
  simp only [LuaScriptManager.start, hstop, hfilter]
  rfl

/-- C1: a script-side write to an object name absent from the Scene Store
is silently absorbed in both strategies: the native setters leave the
store unchanged and return `Ok` to the script (the setter discards the
`false` the store reports), and the cooperative proxy's write returns
without recording a change event or touching the serialized state, so
nothing reaches the store and no error reaches the script. -/
theorem c1_unknown_name_write_absorbed (m : DataModel) (name : String)
    (running : Bool) (v : Vec3) (q : ℚ) (st : LuauScriptState)
    (key : String) (value : LuaValue)
    (hmiss : m.get name = none)
    (hsnap : st.objects = emit_object_table m) :
    placeObject_set_position ⟨m, running⟩ name v = (m, Except.ok ()) ∧
    placeObject_set_rotation ⟨m, running⟩ name v = (m, Except.ok ()) ∧
    placeObject_set_scale ⟨m, running⟩ name v = (m, Except.ok ()) ∧
    placeObject_set_color ⟨m, running⟩ name v = (m, Except.ok ()) ∧
    placeObject_set_fov ⟨m, running⟩ name q = (m, Except.ok ()) ∧
    placeObject_set_intensity ⟨m, running⟩ name q = (m, Except.ok ()) ∧
    luauNewindex st name key value = st := by
  have hupd : ∀ f, m.update name f = (m, false) := fun f =>
    DataModel.update_not_found m name f hmiss
  have hfind : st.objects.find? (fun p => p.1 == name) = none := by
    rw [hsnap]
    exact emit_object_table_find_none m name hmiss
  refine ⟨?_, ?_, ?_, ?_, ?_, ?_, ?_⟩
  · simp [placeObject_set_position, DataModel.set_position, hupd]
  · simp [placeObject_set_rotation, DataModel.set_rotation, hupd]
  · simp [placeObject_set_scale, DataModel.set_scale, hupd]
  · simp [placeObject_set_color, DataModel.set_color, hupd]
  · simp [placeObject_set_fov, DataModel.set_fov, hupd]
  · simp [placeObject_set_intensity, DataModel.set_intensity, hupd]
  · simp [luauNewindex, hfind]

/-- C1 witness: writing to the unknown name "Sphere" in a store holding
only "Cube". -/
theorem c1_witness :
    (DataModel.get [{ SceneObject.default with name := "Cube" }] "Sphere" = none) ∧
    (placeObject_set_position ⟨[{ SceneObject.default with name := "Cube" }], true⟩
        "Sphere" ⟨1, 2, 3⟩ =
      ([{ SceneObject.default with name := "Cube" }], Except.ok ()) ∧
    placeObject_set_rotation ⟨[{ SceneObject.default with name := "Cube" }], true⟩
        "Sphere" ⟨1, 2, 3⟩ =
      ([{ SceneObject.default with name := "Cube" }], Except.ok ()) ∧
    placeObject_set_scale ⟨[{ SceneObject.default with name := "Cube" }], true⟩
        "Sphere" ⟨1, 2, 3⟩ =
      ([{ SceneObject.default with name := "Cube" }], Except.ok ()) ∧
    placeObject_set_color ⟨[{ SceneObject.default with name := "Cube" }], true⟩
        "Sphere" ⟨1, 2, 3⟩ =
      ([{ SceneObject.default with name := "Cube" }], Except.ok ()) ∧
    placeObject_set_fov ⟨[{ SceneObject.default with name := "Cube" }], true⟩
        "Sphere" 7 =
      ([{ SceneObject.default with name := "Cube" }], Except.ok ()) ∧
    placeObject_set_intensity ⟨[{ SceneObject.default with name := "Cube" }], true⟩
        "Sphere" 7 =
      ([{ SceneObject.default with name := "Cube" }], Except.ok ()) ∧
    luauNewindex
        ⟨emit_object_table [{ SceneObject.default with name := "Cube" }], []⟩
        "Sphere" "position" LuaValue.nil =
      ⟨emit_object_table [{ SceneObject.default with name := "Cube" }], []⟩) :=
  ⟨by decide,
    c1_unknown_name_write_absorbed
      [{ SceneObject.default with name := "Cube" }] "Sphere" true ⟨1, 2, 3⟩ 7
      ⟨emit_object_table [{ SceneObject.default with name := "Cube" }], []⟩
      "position" LuaValue.nil (by decide) rfl⟩

/-- C9: a script entry whose extracted bytes are not valid UTF-8 fails its
launch with the `"<name> is not UTF-8"` error before the script runs: the
thread performs no Scene Store operation (the store is unchanged by it),
and at `wait()`/`stop()` aggregation time the error is collected and the
aggregate result is not `Ok`, with every sibling thread's outcome an
independent parameter of the aggregation. -/
theorem c9_non_utf8_script_fails_alone (entryName : String) (bytes : List Nat)
    (exec : List Nat → ThreadOutcome × StoreTrace) (m : DataModel)
    (running : Bool) (siblings1 siblings2 : List ThreadOutcome)
    (h : utf8Valid bytes = false) :
    (run_script_thread entryName bytes exec).1 =
        ThreadOutcome.failure (entryName ++ " is not UTF-8") ∧
    (run_script_thread entryName bytes exec).2 = [] ∧
    applyStoreTrace m (run_script_thread entryName bytes exec).2 = m ∧
    (entryName ++ " is not UTF-8") ∈
      (siblings1 ++ (run_script_thread entryName bytes exec).1 :: siblings2).filterMap
        outcomeError ∧
    (join_threads
        { running := running,
          threads :=
            siblings1 ++ (run_script_thread entryName bytes exec).1 :: siblings2 }).2 ≠
      Except.ok () := by
  have hrun : run_script_thread entryName bytes exec =
      (ThreadOutcome.failure (entryName ++ " is not UTF-8"), []) := by
    simp [run_script_thread, h]
  refine ⟨by rw [hrun], by rw [hrun], by rw [hrun]; rfl, ?_, ?_⟩
  · rw [hrun]
    rw [List.mem_filterMap]
    exact ⟨ThreadOutcome.failure (entryName ++ " is not UTF-8"), by simp, rfl⟩
  · intro hok
    rw [join_threads_ok_iff] at hok
    have hmem : (run_script_thread entryName bytes exec).1 ∈
        siblings1 ++ (run_script_thread entryName bytes exec).1 :: siblings2 := by
      simp
    have := hok _ hmem
    rw [hrun] at this
    exact absurd this (by simp)

/-- C9 witness: the single byte `0xFF` is not UTF-8; the entry
`scripts/bad.lua` fails alone. -/
theorem c9_witness :
    utf8Valid [255] = false ∧
    ((run_script_thread "scripts/bad.lua" [255] (fun _ => (ThreadOutcome.success, []))).1 =
        ThreadOutcome.failure ("scripts/bad.lua" ++ " is not UTF-8") ∧
    (run_script_thread "scripts/bad.lua" [255] (fun _ => (ThreadOutcome.success, []))).2 = [] ∧
    applyStoreTrace []
        (run_script_thread "scripts/bad.lua" [255] (fun _ => (ThreadOutcome.success, []))).2 = [] ∧
    ("scripts/bad.lua" ++ " is not UTF-8") ∈
      (([] : List ThreadOutcome) ++
        (run_script_thread "scripts/bad.lua" [255] (fun _ => (ThreadOutcome.success, []))).1 ::
          ([] : List ThreadOutcome)).filterMap outcomeError ∧
    (join_threads
        { running := true,
          threads :=
            ([] : List ThreadOutcome) ++
              (run_script_thread "scripts/bad.lua" [255]
                  (fun _ => (ThreadOutcome.success, []))).1 ::
                ([] : List ThreadOutcome) }).2 ≠
      Except.ok ()) :=
  ⟨by decide,
    c9_non_utf8_script_fails_alone "scripts/bad.lua" [255]
      (fun _ => (ThreadOutcome.success, [])) [] true [] [] (by decide)⟩

/-- C8 counterexample: the claim says input names match case-insensitively
and that the query never raises an error.  Both parts fail: "Space" and
"space" agree byte-for-byte up to ASCII case yet with the space key held
the query answers `true` for "Space" and `false` for "space" (named keys
are matched case-sensitively); and the name "mous\u00e9" is six bytes
whose fifth byte index splits the two-byte final character, so the mouse
check's byte slice panics instead of returning false. -/
theorem c8_counterexample :
    (utf8Encode "space").map toAsciiLowerByte =
      (utf8Encode "Space").map toAsciiLowerByte ∧
    InputState.is_key_down_by_name
        ⟨[KeyCode.named NamedKey.space], [], (0, 0)⟩ "Space" =
      PanicOr.value true ∧
    InputState.is_key_down_by_name
        ⟨[KeyCode.named NamedKey.space], [], (0, 0)⟩ "space" =
      PanicOr.value false ∧
    InputState.is_key_down_by_name ⟨[], [], (0, 0)⟩ "mous\u00e9" =
      PanicOr.panicked "byte index 5 is not a char boundary" := by
  refine ⟨by decide, by decide, by decide, by decide⟩

theorem utf8EncodeChar_ascii (c : Char) (h : c.toNat < 128) :
    utf8EncodeChar c = [c.toNat] := by
  simp [utf8EncodeChar, h]

theorem utf8EncodeList_ascii (cs : List Char) (h : ∀ c ∈ cs, c.toNat < 128) :
    utf8EncodeList cs = cs.map Char.toNat := by
  induction cs with
  | nil => rfl
  | cons c rest ih =>
    simp only [utf8EncodeList, List.map]
    rw [utf8EncodeChar_ascii c (h c (by simp)),
      ih (fun d hd => h d (by simp [hd]))]
    rfl

/-- A byte sequence accepted by the `u8` parser starts with a plus sign or
a digit, never with a continuation byte. -/
theorem parseU8Bytes_head (bs : List Nat) (v : Nat)
    (h : parseU8Bytes bs = some v) :
    ∃ b t, bs = b :: t ∧ isContByte b = false := by
  cases bs with
  | nil => simp [parseU8Bytes] at h
  | cons b t =>
    refine ⟨b, t, rfl, ?_⟩
    by_cases hb : (b == 43) = true
    · have hb2 : b = 43 := by simpa using hb
      subst hb2
      rfl
    · rw [Bool.not_eq_true] at hb
      simp only [parseU8Bytes, hb, Bool.false_eq_true, if_false] at h
      by_cases hd : ((b :: t).all fun x => 48 ≤ x && x ≤ 57) = true
      · have hbd : (48 ≤ b && b ≤ 57) = true :=
          List.all_eq_true.mp hd b (by simp)
        simp only [Bool.and_eq_true, decide_eq_true_eq] at hbd
        simp only [isContByte]
        simp only [Bool.and_eq_false_iff, decide_eq_false_iff_not]
        omega
      · rw [Bool.not_eq_true] at hd
        simp only [List.isEmpty_cons, hd, Bool.false_eq_true, if_false] at h
        exact absurd h (by simp)
  
/-- Shape of a successful mouse-name parse: five ASCII characters whose
bytes match `"mouse"` ignoring ASCII case, followed by an ASCII suffix
that parses as a `u8`, give the button with the saturating-decremented
index (and no panic: byte 5 begins the suffix, a plus sign or digit). -/
theorem parse_mouse_button_ascii_prefix (c0 c1 c2 c3 c4 : Char)
    (cs : List Char) (v : Nat)
    (h0 : c0.toNat < 128) (h1 : c1.toNat < 128) (h2 : c2.toNat < 128)
    (h3 : c3.toNat < 128) (h4 : c4.toNat < 128)
    (hcase : eqIgnoreAsciiCaseBytes
      [c0.toNat, c1.toNat, c2.toNat, c3.toNat, c4.toNat]
      [109, 111, 117, 115, 101] = true)
    (hall : ∀ c ∈ cs, c.toNat < 128)
    (hds : parseU8Bytes (cs.map Char.toNat) = some v) :
    parse_mouse_button (String.mk (c0 :: c1 :: c2 :: c3 :: c4 :: cs)) =
      PanicOr.value (some ⟨v - 1⟩) := by
  obtain ⟨b, t, hbt, hb⟩ := parseU8Bytes_head _ v hds
  have henc : utf8Encode (String.mk (c0 :: c1 :: c2 :: c3 :: c4 :: cs)) =
      c0.toNat :: c1.toNat :: c2.toNat :: c3.toNat :: c4.toNat ::
        cs.map Char.toNat := by
    show utf8EncodeList (c0 :: c1 :: c2 :: c3 :: c4 :: cs) = _
    simp only [utf8EncodeList, utf8EncodeChar_ascii c0 h0,
      utf8EncodeChar_ascii c1 h1, utf8EncodeChar_ascii c2 h2,
      utf8EncodeChar_ascii c3 h3, utf8EncodeChar_ascii c4 h4,
      utf8EncodeList_ascii cs hall]
    rfl
  have hlen : ¬ ((c0.toNat :: c1.toNat :: c2.toNat :: c3.toNat :: c4.toNat ::
      cs.map Char.toNat).length < 5) := by
    simp [List.length_cons]
  have hbound : is_char_boundary
      (c0.toNat :: c1.toNat :: c2.toNat :: c3.toNat :: c4.toNat ::
        cs.map Char.toNat) 5 = true := by
    simp only [is_char_boundary, List.drop, hbt, hb]
    rfl
  have hne : (cs.map Char.toNat).isEmpty = false := by
    rw [hbt]
    rfl
  simp only [parse_mouse_button, henc]
  rw [if_neg hlen, hbound]
  simp only [List.take, List.drop, hcase, Bool.not_true, Bool.false_eq_true,
    if_false, hne, hds]

/-- C8 amended: the input query parses the symbolic name with the source's
rules — the `"mouse"` family matching its five-byte prefix ignoring ASCII
case (with suffix the 1-based button number), named keys matched exactly,
single ASCII letters uppercased, digits and `F<n>`/`f<n>` function keys —
and answers whether the denoted key or button is currently held; a name
that fails to parse answers `false` without an error, except that a name
of at least five bytes whose byte index 5 splits a multi-byte character
panics in the mouse check's byte slice. -/
theorem c8_amended_input_query (st : InputState) (name1 name2 name3 : String)
    (i : InputName) (cs : List Char) (v : Nat)
    (hsome : parse_input_name name1 = PanicOr.value (some i))
    (hnone : parse_input_name name2 = PanicOr.value none)
    (hlen3 : 5 ≤ (utf8Encode name3).length)
    (hbound3 : is_char_boundary (utf8Encode name3) 5 = false)
    (hcs : ∀ c ∈ cs, c.toNat < 128)
    (hds : parseU8Bytes (cs.map Char.toNat) = some v) :
    st.is_key_down_by_name name1 = PanicOr.value (st.inputDown i) ∧
    st.is_key_down_by_name name2 = PanicOr.value false ∧
    st.is_key_down_by_name name3 =
      PanicOr.panicked "byte index 5 is not a char boundary" ∧
    st.is_key_down_by_name (String.mk ('M' :: 'o' :: 'u' :: 's' :: 'e' :: cs)) =
      PanicOr.value (st.is_mouse_button_down ⟨v - 1⟩) ∧
    st.is_key_down_by_name (String.mk ('m' :: 'o' :: 'u' :: 's' :: 'e' :: cs)) =
      PanicOr.value (st.is_mouse_button_down ⟨v - 1⟩) := by
  refine ⟨?_, ?_, ?_, ?_, ?_⟩
  · simp only [InputState.is_key_down_by_name, hsome]
    cases i <;> rfl
  · simp only [InputState.is_key_down_by_name, hnone]
  · have hp : parse_mouse_button name3 =
        PanicOr.panicked "byte index 5 is not a char boundary" := by
      simp only [parse_mouse_button]
      rw [if_neg (by omega : ¬ ((utf8Encode name3).length < 5)), hbound3]
      rfl
    simp only [InputState.is_key_down_by_name, parse_input_name, hp]
  · have hA := parse_mouse_button_ascii_prefix 'M' 'o' 'u' 's' 'e' cs v
      (by decide) (by decide) (by decide) (by decide) (by decide)
      (by decide) hcs hds
    simp only [InputState.is_key_down_by_name, parse_input_name, hA]
  · have hB := parse_mouse_button_ascii_prefix 'm' 'o' 'u' 's' 'e' cs v
      (by decide) (by decide) (by decide) (by decide) (by decide)
      (by decide) hcs hds
    simp only [InputState.is_key_down_by_name, parse_input_name, hB]

/-- C8 witness: "Space" reports the held space key, "Unknown" answers
`false`, "mous\u00e9" panics on its byte-boundary check, and
"Mouse2"/"mouse2" both report button index 1. -/
theorem c8_witness :
    (parse_input_name "Space" =
        PanicOr.value (some (InputName.key (KeyCode.named NamedKey.space))) ∧
      parse_input_name "Unknown" = PanicOr.value none ∧
      5 ≤ (utf8Encode "mous\u00e9").length ∧
      is_char_boundary (utf8Encode "mous\u00e9") 5 = false ∧
      (∀ c ∈ ['2'], c.toNat < 128) ∧
      parseU8Bytes (['2'].map Char.toNat) = some 2) ∧
    (InputState.is_key_down_by_name
        ⟨[KeyCode.named NamedKey.space], [⟨1⟩], (0, 0)⟩ "Space" =
      PanicOr.value (InputState.inputDown
        ⟨[KeyCode.named NamedKey.space], [⟨1⟩], (0, 0)⟩
        (InputName.key (KeyCode.named NamedKey.space))) ∧
    InputState.is_key_down_by_name
        ⟨[KeyCode.named NamedKey.space], [⟨1⟩], (0, 0)⟩ "Unknown" =
      PanicOr.value false ∧
    InputState.is_key_down_by_name
        ⟨[KeyCode.named NamedKey.space], [⟨1⟩], (0, 0)⟩ "mous\u00e9" =
      PanicOr.panicked "byte index 5 is not a char boundary" ∧
    InputState.is_key_down_by_name
        ⟨[KeyCode.named NamedKey.space], [⟨1⟩], (0, 0)⟩
        (String.mk ('M' :: 'o' :: 'u' :: 's' :: 'e' :: ['2'])) =
      PanicOr.value (InputState.is_mouse_button_down
        ⟨[KeyCode.named NamedKey.space], [⟨1⟩], (0, 0)⟩ ⟨2 - 1⟩) ∧
    InputState.is_key_down_by_name
        ⟨[KeyCode.named NamedKey.space], [⟨1⟩], (0, 0)⟩
        (String.mk ('m' :: 'o' :: 'u' :: 's' :: 'e' :: ['2'])) =
      PanicOr.value (InputState.is_mouse_button_down
        ⟨[KeyCode.named NamedKey.space], [⟨1⟩], (0, 0)⟩ ⟨2 - 1⟩)) :=
  ⟨⟨by decide, by decide, by decide, by decide, by decide, by decide⟩,
    c8_amended_input_query ⟨[KeyCode.named NamedKey.space], [⟨1⟩], (0, 0)⟩
      "Space" "Unknown" "mous\u00e9"
      (InputName.key (KeyCode.named NamedKey.space)) ['2'] 2
      (by decide) (by decide) (by decide) (by decide) (by decide) (by decide)⟩

/-- C6 witness: a fresh manager over an archive holding only non-script
entries. -/
theorem c6_witness :
    (({ running := false, threads := [] } : ManagerState).threads = [] ∧
      ∀ e ∈ ["scene.xml", "meshes/cube.obj"], "scripts/".data.isPrefixOf e.data = false) ∧
    (LuaScriptManager.start { running := false, threads := [] }
          ["scene.xml", "meshes/cube.obj"] (fun _ => ThreadOutcome.success) =
        ({ running := false, threads := [] }, Except.ok 0) ∧
      LuaScriptManager.stop { running := false, threads := [] } =
        ({ running := false, threads := [] }, Except.ok ()) ∧
      LuaScriptManager.wait { running := false, threads := [] } =
        ({ running := false, threads := [] }, Except.ok ())) :=
  ⟨⟨rfl, by decide⟩,
    c6_no_scripts_start_noop { running := false, threads := [] }
      ["scene.xml", "meshes/cube.obj"] (fun _ => ThreadOutcome.success)
      rfl (by decide)⟩

end Crystal
